import Mathlib

/-!
# yubinuki: the read / authorize / verify / unlatch cycle

A shallow embedding of `main.go`.  Go strings are byte sequences, so they are
lists of bytes here and `len` is `List.length`.  The NFC reader, the Yubicloud
client and the HTTP stack are outside the program: one `World` value fixes what
each of them answers during one cycle, and every function that talks to them
returns, next to its Go result, the list of calls and log lines it produced.
-/

namespace Yubinuki

/-! ## Strings, durations, errors -/

/-- A Go `string`: an immutable sequence of bytes. -/
abbrev GoString := List UInt8

/-- The bytes of a string literal of the source (Go source text is UTF-8). -/
def str (s : String) : GoString := s.toUTF8.data.toList

/-- A `time.Duration`, counted in nanoseconds. -/
abbrev Duration := Nat

/-- The constant `time.Millisecond`. -/
def Millisecond : Duration := 1000000

/-- The constant `time.Second`. -/
def Second : Duration := 1000 * Millisecond

/-- Package variable `waitNoTargets`. -/
def waitNoTargets : Duration := 400 * Millisecond

/-- Package variable `waitError`. -/
def waitError : Duration := 5 * Second

/-- Package variable `yubikeyPayloadURLPrefixes`. -/
def yubikeyPayloadURLPrefixes : List GoString :=
  [str "https://my.yubico.com/neo/"]

/-- Go `error` values that can reach the main loop, told apart by where the value
was made.  Go compares errors by identity, so a value built in this package by
`errors.New` or `fmt.Errorf`, or handed back by the Yubicloud client or the
HTTP and JSON stack, is never the sentinel variable of the `libnfc` package. -/
inductive GoError where
  /-- The sentinel `libnfc.ErrNoTargetsDetected`. -/
  | ErrNoTargetsDetected : GoError
  /-- Any other error value returned by `device.Read`. -/
  | device (code : Nat) : GoError
  /-- A value made by `errors.New` or `fmt.Errorf` with the given text. -/
  | errorString (msg : GoString) : GoError
  /-- An error returned by `yubiauth.Verify`. -/
  | yubiauth (code : Nat) : GoError
  /-- An error returned by `url.Parse`. -/
  | urlParse (code : Nat) : GoError
  /-- An error returned by `http.Get`. -/
  | httpGet (code : Nat) : GoError
  /-- An error returned by `ioutil.ReadAll`. -/
  | readAll (code : Nat) : GoError
  /-- An error returned by `json.Unmarshal`. -/
  | jsonUnmarshal (code : Nat) : GoError
  deriving DecidableEq, Repr

deriving instance DecidableEq for Except

/-! ## Configuration and the outside world -/

/-- The struct `Config`. -/
structure Config where
  NukiBridgeAddr : GoString
  NukiBridgeToken : GoString
  NukiLockID : GoString
  AuthorizedYubikeys : List GoString
  YubicloudClientID : GoString
  YubicloudSecretKey : GoString
  deriving DecidableEq, Repr

/-- The struct `nukiResp`. -/
structure nukiResp where
  Success : Bool
  BatteryCritical : Bool
  deriving DecidableEq, Repr

/-- What `device.Read()` gives back. -/
inductive ReadResult where
  /-- The error is `libnfc.ErrNoTargetsDetected`. -/
  | noTargets : ReadResult
  /-- Any other non-nil error. -/
  | failure (code : Nat) : ReadResult
  /-- No error; the payload strings of `ndefMessage.Records`, in order. -/
  | message (records : List GoString) : ReadResult
  deriving DecidableEq, Repr

/-- The answers of the external collaborators during one cycle. -/
structure World where
  /-- The call `device.Read()`. -/
  deviceRead : ReadResult
  /-- The call `yubiauth.Verify(token)`: the `ok` flag and the error, if any. -/
  yubiVerify : GoString → Bool × Option Nat
  /-- The call `url.Parse(s)`: the error, if any. -/
  urlParse : GoString → Option Nat
  /-- The call `http.Get` on the URL with the encoded query: the error, if any. -/
  httpGet : GoString → List (GoString × GoString) → Option Nat
  /-- The call `ioutil.ReadAll(resp.Body)`. -/
  readAll : Except Nat GoString
  /-- The call `json.Unmarshal(js, status)` on an empty `nukiResp`. -/
  jsonUnmarshal : GoString → Except Nat nukiResp

/-- The observable actions of the program. -/
inductive Event where
  /-- A call of `device.Read()`. -/
  | deviceRead : Event
  /-- A call of `log.Println` with string operands. -/
  | logPrintln (args : List GoString) : Event
  /-- The call `log.Println(err)` of the main loop. -/
  | logError (err : GoError) : Event
  /-- A call of `yubiauth.Verify(token)`. -/
  | yubiVerify (token : GoString) : Event
  /-- Entry into `openDoor`. -/
  | openDoor : Event
  /-- A call of `http.Get` with the URL and its query values. -/
  | httpGet (url : GoString) (query : List (GoString × GoString)) : Event
  /-- The call `fmt.Println("Opened door. Success: ", status.Success)`. -/
  | fmtPrintln (text : GoString) (success : Bool) : Event
  /-- A call of `time.Sleep(d)`. -/
  | sleep (d : Duration) : Event
  deriving DecidableEq, Repr

/-! ## The functions of `main.go` -/

/-- Library function `strings.HasPrefix`. -/
def HasPrefix (s pre : GoString) : Bool :=
  decide (pre.length ≤ s.length) && decide (s.take pre.length = pre)

/-- Library function `strings.TrimPrefix`. -/
def TrimPrefix (s pre : GoString) : GoString :=
  if HasPrefix s pre then s.drop pre.length else s

/-- The `for ... range` loop of `parseYubikeyURL` over the remaining prefixes. -/
def parseYubikeyURLLoop (ykURL : GoString) : List GoString → GoString
  | [] => []
  | pre :: rest =>
    let tok := TrimPrefix ykURL pre
    if tok ≠ ykURL then tok else parseYubikeyURLLoop ykURL rest

/-- Function `parseYubikeyURL`. -/
def parseYubikeyURL (ykURL : GoString) : GoString :=
  parseYubikeyURLLoop ykURL yubikeyPayloadURLPrefixes

/-- Method `readToken`. -/
def readToken (w : World) : Except GoError GoString × List Event :=
  match w.deviceRead with
  | .noTargets => (.error .ErrNoTargetsDetected, [.deviceRead])
  | .failure c => (.error (.device c), [.deviceRead])
  | .message [] =>
    (.error (.errorString (str "no ndef records present")), [.deviceRead])
  | .message (url :: _) =>
    let token := parseYubikeyURL url
    if token = [] then
      (.error (.errorString (str "unknown token url")), [.deviceRead])
    else
      (.ok token, [.deviceRead, .logPrintln [str "Read token: ", token]])

/-- The `for ... range` loop of `authorizeTokenID` over the remaining entries. -/
def authorizeScan (id : GoString) : List GoString → Bool
  | [] => false
  | user :: rest => if user = id then true else authorizeScan id rest

/-- Method `authorizeTokenID`. -/
def authorizeTokenID (cfg : Config) (token : GoString) : Bool × List Event :=
  if token.length ≤ 32 then (false, [])
  else
    let id := token.take (token.length - 32)
    if authorizeScan id cfg.AuthorizedYubikeys then
      (true, [.logPrintln [str "authorized user: ", id]])
    else
      (false, [.logPrintln [str "Not authorized token ID: ", id]])

/-- Method `verifyToken`. -/
def verifyToken (w : World) (token : GoString) :
    (Bool × Option GoError) × List Event :=
  (((w.yubiVerify token).1, (w.yubiVerify token).2.map GoError.yubiauth),
    [.yubiVerify token])

/-- The query values set in `openDoor`, in the key order of `q.Encode()`. -/
def lockActionQuery (cfg : Config) : List (GoString × GoString) :=
  [(str "action", str "3"), (str "noWait", str "0"),
   (str "nukiId", cfg.NukiLockID), (str "token", cfg.NukiBridgeToken)]

/-- The string `fmt.Sprintf("http://%s/lockAction", cfg.NukiBridgeAddr)`. -/
def lockActionURL (cfg : Config) : GoString :=
  str "http://" ++ cfg.NukiBridgeAddr ++ str "/lockAction"

/-- Method `openDoor`. -/
def openDoor (cfg : Config) (w : World) : Option GoError × List Event :=
  match w.urlParse (lockActionURL cfg) with
  | some c => (some (.urlParse c), [.openDoor])
  | none =>
    let get := Event.httpGet (lockActionURL cfg) (lockActionQuery cfg)
    match w.httpGet (lockActionURL cfg) (lockActionQuery cfg) with
    | some c => (some (.httpGet c), [.openDoor, get])
    | none =>
      match w.readAll with
      | .error c => (some (.readAll c), [.openDoor, get])
      | .ok js =>
        match w.jsonUnmarshal js with
        | .error c => (some (.jsonUnmarshal c), [.openDoor, get])
        | .ok status =>
          (none, [.openDoor, get,
            .fmtPrintln (str "Opened door. Success: ") status.Success])

/-- Method `ReadAndAuthorizeYubikey`: one cycle. -/
def ReadAndAuthorizeYubikey (cfg : Config) (w : World) :
    Option GoError × List Event :=
  match readToken w with
  | (.error err, t1) => (some err, t1)
  | (.ok token, t1) =>
    let a := authorizeTokenID cfg token
    if !a.1 then
      (some (.errorString (str "unknown token ID for: " ++ token)), t1 ++ a.2)
    else
      let v := verifyToken w token
      match v.1.2 with
      | some err => (some err, t1 ++ a.2 ++ v.2)
      | none =>
        if !v.1.1 then
          (some (.errorString (str "BAD YUBIKEY STATUS: " ++ token)),
            t1 ++ a.2 ++ v.2)
        else
          let d := openDoor cfg w
          (d.1, t1 ++ a.2 ++ v.2 ++
            [.logPrintln [str "Verified token: ", token]] ++ d.2)

/-- How one pass through the body of the `for` statement of `main` ends. -/
inductive Control where
  /-- The next pass starts (`continue`, or the end of the body). -/
  | next : Control
  /-- The loop is left (`break`, `return` or a fatal log call). -/
  | leave : Control
  deriving DecidableEq, Repr

/-- The body of the `for` statement of `main`. -/
def loopBody (cfg : Config) (w : World) : List Event × Control :=
  let r := ReadAndAuthorizeYubikey cfg w
  match r.1 with
  | some .ErrNoTargetsDetected => (r.2 ++ [.sleep waitNoTargets], .next)
  | some err => (r.2 ++ [.logError err, .sleep waitError], .next)
  | none => (r.2 ++ [.sleep (10 * Second)], .next)

/-- The state of the `for` statement of `main`: the passes made so far, what they
did, and whether the loop is still running. -/
structure LoopState where
  passes : Nat
  trace : List Event
  running : Bool

/-- The `for` statement of `main`, cut off after `fuel` passes; `ws n` is the
outside world during pass `n`. -/
def mainLoop (cfg : Config) (ws : Nat → World) : Nat → LoopState
  | 0 => ⟨0, [], true⟩
  | fuel + 1 =>
    let s := mainLoop cfg ws fuel
    if s.running then
      let b := loopBody cfg (ws s.passes)
      ⟨s.passes + 1, s.trace ++ b.1, decide (b.2 = .next)⟩
    else s

/-- The durations of the `time.Sleep` calls in a trace, in order. -/
def sleeps : List Event → List Duration
  | [] => []
  | .sleep d :: rest => d :: sleeps rest
  | _ :: rest => sleeps rest

/-- Whether an event is a log line (`log.Println` or `fmt.Println`). -/
def Event.isLog : Event → Bool
  | .logPrintln _ => true
  | .logError _ => true
  | .fmtPrintln _ _ => true
  | _ => false

/-! ## Sample configurations and worlds -/

/-- A configuration with the given allow-list and empty controller and issuer
settings. -/
def configWith (allow : List GoString) : Config :=
  ⟨[], [], [], allow, [], []⟩

/-- A world in which the reader delivers the given records, the issuer answers
`verify`, and the lock controller answers with a decodable body whose
`success` flag is `success`. -/
def worldWith (read : ReadResult) (verify : Bool × Option Nat) (success : Bool) :
    World :=
  ⟨read, fun _ => verify, fun _ => none, fun _ _ => none, .ok [],
    fun _ => .ok ⟨success, false⟩⟩

/-- The tag payload of scenario A. -/
def scenarioPayload : GoString :=
  str "https://my.yubico.com/neo/ccccccccccccvvvvvvvvvvvvvvvvvvvvvvvvvvvv"

/-- The token carried by the payload of scenario A. -/
def scenarioToken : GoString :=
  str "ccccccccccccvvvvvvvvvvvvvvvvvvvvvvvvvvvv"

/-- A token of 44 bytes: twelve times `c`, then thirty-two times `v`. -/
def longToken : GoString :=
  str "ccccccccccccvvvvvvvvvvvvvvvvvvvvvvvvvvvvvvvv"

/-! ## Lemmas on the two scans -/

theorem authorizeScan_iff (id : GoString) (users : List GoString) :
    authorizeScan id users = true ↔ id ∈ users := by
  induction users with
  | nil => simp [authorizeScan]
  | cons user rest ih =>
    by_cases h : user = id
    · simp [authorizeScan, h]
    · have h2 : ¬ id = user := fun e => h e.symm
      simp [authorizeScan, h, h2, ih]

theorem authorizeTokenID_short (cfg : Config) (token : GoString)
    (h : token.length ≤ 32) : authorizeTokenID cfg token = (false, []) := by
  simp [authorizeTokenID, h]

theorem authorizeTokenID_long (cfg : Config) (token : GoString)
    (h : 32 < token.length) :
    (authorizeTokenID cfg token).1 =
      authorizeScan (token.take (token.length - 32)) cfg.AuthorizedYubikeys := by
  have h2 : ¬ token.length ≤ 32 := Nat.not_le.mpr h
  unfold authorizeTokenID
  rw [if_neg h2]
  by_cases hs : authorizeScan (token.take (token.length - 32)) cfg.AuthorizedYubikeys = true
  · simp [hs]
  · simp [hs]

/-! ## Lemmas on prefix stripping -/

theorem HasPrefix_append (pre t : GoString) : HasPrefix (pre ++ t) pre = true := by
  simp [HasPrefix]

theorem TrimPrefix_append (pre t : GoString) : TrimPrefix (pre ++ t) pre = t := by
  simp [TrimPrefix, HasPrefix_append]

theorem TrimPrefix_of_not_HasPrefix (s pre : GoString) (h : HasPrefix s pre = false) :
    TrimPrefix s pre = s := by
  simp [TrimPrefix, h]

theorem append_ne_self_of_ne_nil (pre t : GoString) (h : pre ≠ []) : t ≠ pre ++ t := by
  intro e
  have hl : t.length = (pre ++ t).length := congrArg List.length e
  rw [List.length_append] at hl
  have hp : 0 < pre.length := List.length_pos.mpr h
  omega

theorem parseYubikeyURLLoop_append (pre t : GoString) (rest : List GoString)
    (h : pre ≠ []) : parseYubikeyURLLoop (pre ++ t) (pre :: rest) = t := by
  simp [parseYubikeyURLLoop, TrimPrefix_append, append_ne_self_of_ne_nil pre t h]

theorem parseYubikeyURLLoop_no_match (url : GoString) (pres : List GoString)
    (h : ∀ pre ∈ pres, HasPrefix url pre = false) :
    parseYubikeyURLLoop url pres = [] := by
  induction pres with
  | nil => rfl
  | cons pre rest ih =>
    have h1 : HasPrefix url pre = false := h pre (List.mem_cons_self _ _)
    have h2 : ∀ q ∈ rest, HasPrefix url q = false :=
      fun q hq => h q (List.mem_cons_of_mem _ hq)
    simp [parseYubikeyURLLoop, TrimPrefix_of_not_HasPrefix url pre h1, ih h2]

theorem parseYubikeyURL_append (pre t : GoString)
    (h : pre ∈ yubikeyPayloadURLPrefixes) : parseYubikeyURL (pre ++ t) = t := by
  have hp : pre = str "https://my.yubico.com/neo/" := by
    simpa [yubikeyPayloadURLPrefixes] using h
  subst hp
  exact parseYubikeyURLLoop_append _ t [] (by decide)

theorem readToken_message_cons (w : World) (url : GoString) (rest : List GoString)
    (h : w.deviceRead = .message (url :: rest)) :
    readToken w =
      if parseYubikeyURL url = [] then
        (.error (.errorString (str "unknown token url")), [.deviceRead])
      else
        (.ok (parseYubikeyURL url),
          [.deviceRead, .logPrintln [str "Read token: ", parseYubikeyURL url]]) := by
  simp [readToken, h]

/-! ## Lemmas on one cycle -/

theorem cycle_read_error (cfg : Config) (w : World) (e : GoError)
    (h : (readToken w).1 = .error e) :
    ReadAndAuthorizeYubikey cfg w = (some e, (readToken w).2) := by
  unfold ReadAndAuthorizeYubikey
  rcases hrt : readToken w with ⟨r, t1⟩
  rw [hrt] at h
  simp only at h
  subst h
  rfl

theorem cycle_unauthorized (cfg : Config) (w : World) (token : GoString)
    (h : (readToken w).1 = .ok token) (ha : (authorizeTokenID cfg token).1 = false) :
    ReadAndAuthorizeYubikey cfg w =
      (some (.errorString (str "unknown token ID for: " ++ token)),
        (readToken w).2 ++ (authorizeTokenID cfg token).2) := by
  unfold ReadAndAuthorizeYubikey
  rcases hrt : readToken w with ⟨r, t1⟩
  rw [hrt] at h
  simp only at h
  subst h
  simp [ha]

theorem cycle_verify_error (cfg : Config) (w : World) (token : GoString) (e : GoError)
    (h : (readToken w).1 = .ok token) (ha : (authorizeTokenID cfg token).1 = true)
    (hv : (verifyToken w token).1.2 = some e) :
    ReadAndAuthorizeYubikey cfg w =
      (some e, (readToken w).2 ++ (authorizeTokenID cfg token).2 ++
        (verifyToken w token).2) := by
  unfold ReadAndAuthorizeYubikey
  rcases hrt : readToken w with ⟨r, t1⟩
  rw [hrt] at h
  simp only at h
  subst h
  simp [ha, hv]

theorem cycle_verify_invalid (cfg : Config) (w : World) (token : GoString)
    (h : (readToken w).1 = .ok token) (ha : (authorizeTokenID cfg token).1 = true)
    (hv : (verifyToken w token).1 = (false, none)) :
    ReadAndAuthorizeYubikey cfg w =
      (some (.errorString (str "BAD YUBIKEY STATUS: " ++ token)),
        (readToken w).2 ++ (authorizeTokenID cfg token).2 ++
          (verifyToken w token).2) := by
  unfold ReadAndAuthorizeYubikey
  rcases hrt : readToken w with ⟨r, t1⟩
  rw [hrt] at h
  simp only at h
  subst h
  simp [ha, hv]

theorem cycle_verified (cfg : Config) (w : World) (token : GoString)
    (h : (readToken w).1 = .ok token) (ha : (authorizeTokenID cfg token).1 = true)
    (hv : (verifyToken w token).1 = (true, none)) :
    ReadAndAuthorizeYubikey cfg w =
      ((openDoor cfg w).1,
        (readToken w).2 ++ (authorizeTokenID cfg token).2 ++ (verifyToken w token).2 ++
          [.logPrintln [str "Verified token: ", token]] ++ (openDoor cfg w).2) := by
  unfold ReadAndAuthorizeYubikey
  rcases hrt : readToken w with ⟨r, t1⟩
  rw [hrt] at h
  simp only at h
  subst h
  simp [ha, hv]

theorem readToken_trace (w : World) (e : Event) (h : e ∈ (readToken w).2) :
    e = .deviceRead ∨ ∃ args, e = .logPrintln args := by
  unfold readToken at h
  split at h
  · simp at h; exact Or.inl h
  · simp at h; exact Or.inl h
  · simp at h; exact Or.inl h
  · simp only at h
    split at h
    · simp at h; exact Or.inl h
    · simp at h
      rcases h with h | h
      · exact Or.inl h
      · exact Or.inr ⟨_, h⟩

theorem authorizeTokenID_trace (cfg : Config) (token : GoString) (e : Event)
    (h : e ∈ (authorizeTokenID cfg token).2) : ∃ args, e = .logPrintln args := by
  unfold authorizeTokenID at h
  split at h
  · simp at h
  · simp only at h
    split at h
    · simp at h; exact ⟨_, h⟩
    · simp at h; exact ⟨_, h⟩

theorem openDoor_mem_trace (cfg : Config) (w : World) :
    Event.openDoor ∈ (openDoor cfg w).2 := by
  unfold openDoor
  split
  · simp
  · split
    · simp
    · split
      · simp
      · split <;> simp

theorem verifyToken_fst (w : World) (token : GoString) :
    (verifyToken w token).1 =
      ((w.yubiVerify token).1, (w.yubiVerify token).2.map GoError.yubiauth) := rfl

theorem verifyToken_trace (w : World) (token : GoString) :
    (verifyToken w token).2 = [.yubiVerify token] := rfl

theorem openDoor_not_mem_readToken (w : World) :
    Event.openDoor ∉ (readToken w).2 := by
  intro h
  rcases readToken_trace w _ h with h1 | ⟨args, h1⟩ <;> cases h1

theorem openDoor_not_mem_authorize (cfg : Config) (token : GoString) :
    Event.openDoor ∉ (authorizeTokenID cfg token).2 := by
  intro h
  rcases authorizeTokenID_trace cfg token _ h with ⟨args, h1⟩
  cases h1

theorem yubiVerify_not_mem_readToken (w : World) (t : GoString) :
    Event.yubiVerify t ∉ (readToken w).2 := by
  intro h
  rcases readToken_trace w _ h with h1 | ⟨args, h1⟩ <;> cases h1

theorem yubiVerify_not_mem_authorize (cfg : Config) (token t : GoString) :
    Event.yubiVerify t ∉ (authorizeTokenID cfg token).2 := by
  intro h
  rcases authorizeTokenID_trace cfg token _ h with ⟨args, h1⟩
  cases h1

theorem verifyToken_cases (w : World) (token : GoString) :
    (∃ ok e, (verifyToken w token).1 = (ok, some e)) ∨
    (verifyToken w token).1 = (false, none) ∨
    (verifyToken w token).1 = (true, none) := by
  rcases hv : (verifyToken w token).1 with ⟨ok, _ | e⟩
  · cases ok
    · exact Or.inr (Or.inl rfl)
    · exact Or.inr (Or.inr rfl)
  · exact Or.inl ⟨ok, e, rfl⟩

theorem verifyToken_error_origin (w : World) (token : GoString) (ok : Bool)
    (e : GoError) (h : (verifyToken w token).1 = (ok, some e)) :
    ∃ c, e = .yubiauth c := by
  rw [verifyToken_fst] at h
  rcases hy : (w.yubiVerify token).2 with _ | c
  · rw [hy] at h
    simp at h
  · rw [hy] at h
    simp at h
    exact ⟨c, h.2.symm⟩

theorem cycle_authorized_verifies (cfg : Config) (w : World) (token : GoString)
    (h : (readToken w).1 = .ok token) (ha : (authorizeTokenID cfg token).1 = true) :
    Event.yubiVerify token ∈ (ReadAndAuthorizeYubikey cfg w).2 := by
  rcases verifyToken_cases w token with ⟨ok, e, hv⟩ | hv | hv
  · have hv2 : (verifyToken w token).1.2 = some e := by rw [hv]
    rw [cycle_verify_error cfg w token e h ha hv2, verifyToken_trace]
    simp
  · rw [cycle_verify_invalid cfg w token h ha hv, verifyToken_trace]
    simp
  · rw [cycle_verified cfg w token h ha hv, verifyToken_trace]
    simp

theorem bad_status_ne_unknown_id (t t2 : GoString) :
    str "BAD YUBIKEY STATUS: " ++ t ≠ str "unknown token ID for: " ++ t2 := by
  have h1 : str "BAD YUBIKEY STATUS: " = 66 :: str "AD YUBIKEY STATUS: " := by decide
  have h2 : str "unknown token ID for: " = 117 :: str "nknown token ID for: " := by
    decide
  rw [h1, h2]
  intro h
  simp at h

/-! ## Lemmas on the main loop -/

theorem sleeps_append (a b : List Event) : sleeps (a ++ b) = sleeps a ++ sleeps b := by
  induction a with
  | nil => rfl
  | cons e rest ih => cases e <;> simp [sleeps, ih]

theorem sleeps_readToken (w : World) : sleeps (readToken w).2 = [] := by
  unfold readToken
  split
  · rfl
  · rfl
  · rfl
  · simp only
    split <;> rfl

theorem sleeps_authorize (cfg : Config) (token : GoString) :
    sleeps (authorizeTokenID cfg token).2 = [] := by
  unfold authorizeTokenID
  split
  · rfl
  · simp only
    split <;> rfl

theorem sleeps_openDoor (cfg : Config) (w : World) : sleeps (openDoor cfg w).2 = [] := by
  unfold openDoor
  split
  · rfl
  · simp only
    split
    · rfl
    · split
      · rfl
      · split <;> rfl

theorem cycle_cases (cfg : Config) (w : World) :
    (∃ e, (readToken w).1 = .error e) ∨
    (∃ token, (readToken w).1 = .ok token ∧ (authorizeTokenID cfg token).1 = false) ∨
    (∃ token ok e, (readToken w).1 = .ok token ∧
      (authorizeTokenID cfg token).1 = true ∧ (verifyToken w token).1 = (ok, some e)) ∨
    (∃ token, (readToken w).1 = .ok token ∧
      (authorizeTokenID cfg token).1 = true ∧ (verifyToken w token).1 = (false, none)) ∨
    (∃ token, (readToken w).1 = .ok token ∧
      (authorizeTokenID cfg token).1 = true ∧ (verifyToken w token).1 = (true, none)) := by
  rcases hrt : (readToken w).1 with e | token
  · exact Or.inl ⟨e, rfl⟩
  · cases ha : (authorizeTokenID cfg token).1
    · exact Or.inr (Or.inl ⟨token, rfl, ha⟩)
    · rcases verifyToken_cases w token with ⟨ok, e, hv⟩ | hv | hv
      · exact Or.inr (Or.inr (Or.inl ⟨token, ok, e, rfl, ha, hv⟩))
      · exact Or.inr (Or.inr (Or.inr (Or.inl ⟨token, rfl, ha, hv⟩)))
      · exact Or.inr (Or.inr (Or.inr (Or.inr ⟨token, rfl, ha, hv⟩)))

theorem sleeps_cycle (cfg : Config) (w : World) :
    sleeps (ReadAndAuthorizeYubikey cfg w).2 = [] := by
  rcases cycle_cases cfg w with ⟨e, h⟩ | ⟨token, h, ha⟩ | ⟨token, ok, e, h, ha, hv⟩ |
    ⟨token, h, ha, hv⟩ | ⟨token, h, ha, hv⟩
  · rw [cycle_read_error cfg w e h]
    exact sleeps_readToken w
  · rw [cycle_unauthorized cfg w token h ha]
    simp [sleeps_append, sleeps_readToken, sleeps_authorize]
  · have hv2 : (verifyToken w token).1.2 = some e := by rw [hv]
    rw [cycle_verify_error cfg w token e h ha hv2, verifyToken_trace]
    simp [sleeps_append, sleeps_readToken, sleeps_authorize, sleeps]
  · rw [cycle_verify_invalid cfg w token h ha hv, verifyToken_trace]
    simp [sleeps_append, sleeps_readToken, sleeps_authorize, sleeps]
  · rw [cycle_verified cfg w token h ha hv, verifyToken_trace]
    simp [sleeps_append, sleeps_readToken, sleeps_authorize, sleeps_openDoor, sleeps]

theorem readToken_noTargets (w : World) (h : w.deviceRead = .noTargets) :
    readToken w = (.error .ErrNoTargetsDetected, [.deviceRead]) := by
  simp [readToken, h]

theorem readToken_noTargets_iff (w : World) :
    (readToken w).1 = .error .ErrNoTargetsDetected ↔ w.deviceRead = .noTargets := by
  constructor
  · intro h
    unfold readToken at h
    split at h
    · assumption
    · simp at h
    · simp at h
    · simp only at h
      split at h <;> simp at h
  · intro h
    rw [readToken_noTargets w h]

theorem openDoor_error_origin (cfg : Config) (w : World) :
    (openDoor cfg w).1 ≠ some .ErrNoTargetsDetected := by
  unfold openDoor
  split
  · simp
  · simp only
    split
    · simp
    · split
      · simp
      · split <;> simp

theorem openDoor_none_iff (cfg : Config) (w : World) :
    (openDoor cfg w).1 = none ↔
      w.urlParse (lockActionURL cfg) = none ∧
      w.httpGet (lockActionURL cfg) (lockActionQuery cfg) = none ∧
      ∃ js status, w.readAll = .ok js ∧ w.jsonUnmarshal js = .ok status := by
  unfold openDoor
  split
  · rename_i c hc
    simp [hc]
  · rename_i hc
    simp only
    split
    · rename_i c2 hc2
      simp [hc2]
    · rename_i hc2
      split
      · rename_i c3 hc3
        simp [hc3]
      · rename_i js hjs
        split
        · rename_i c4 hc4
          simp [hc, hc2, hjs, hc4]
        · rename_i status hst
          simp [hc, hc2, hjs, hst]

theorem cycle_noTargets_iff (cfg : Config) (w : World) :
    (ReadAndAuthorizeYubikey cfg w).1 = some .ErrNoTargetsDetected ↔
      w.deviceRead = .noTargets := by
  have hok : ∀ token, (readToken w).1 = .ok token → w.deviceRead ≠ .noTargets := by
    intro token h hn
    rw [readToken_noTargets w hn] at h
    cases h
  rcases cycle_cases cfg w with ⟨e, h⟩ | ⟨token, h, ha⟩ | ⟨token, ok, e, h, ha, hv⟩ |
    ⟨token, h, ha, hv⟩ | ⟨token, h, ha, hv⟩
  · rw [cycle_read_error cfg w e h, ← readToken_noTargets_iff, h]
    simp
  · rw [cycle_unauthorized cfg w token h ha]
    simp [hok token h]
  · have hv2 : (verifyToken w token).1.2 = some e := by rw [hv]
    rcases verifyToken_error_origin w token ok e hv with ⟨c, rfl⟩
    rw [cycle_verify_error cfg w token _ h ha hv2]
    simp [hok token h]
  · rw [cycle_verify_invalid cfg w token h ha hv]
    simp [hok token h]
  · rw [cycle_verified cfg w token h ha hv]
    simp [hok token h, openDoor_error_origin]

theorem cycle_none_iff (cfg : Config) (w : World) :
    (ReadAndAuthorizeYubikey cfg w).1 = none ↔
      ∃ token, (readToken w).1 = .ok token ∧
        (authorizeTokenID cfg token).1 = true ∧
        (verifyToken w token).1 = (true, none) ∧ (openDoor cfg w).1 = none := by
  have key : ∀ (token : GoString) (P : GoString → Prop),
      (readToken w).1 = .ok token → ((∃ t, (readToken w).1 = .ok t ∧ P t) ↔ P token) := by
    intro token P h
    constructor
    · rintro ⟨t, h1, h2⟩
      rw [h] at h1
      cases h1
      exact h2
    · intro h2
      exact ⟨token, h, h2⟩
  rcases cycle_cases cfg w with ⟨e, h⟩ | ⟨token, h, ha⟩ | ⟨token, ok, e, h, ha, hv⟩ |
    ⟨token, h, ha, hv⟩ | ⟨token, h, ha, hv⟩
  · rw [cycle_read_error cfg w e h]
    simp [h]
  · rw [cycle_unauthorized cfg w token h ha, key token _ h]
    simp [ha]
  · have hv2 : (verifyToken w token).1.2 = some e := by rw [hv]
    rw [cycle_verify_error cfg w token _ h ha hv2, key token _ h]
    simp [hv]
  · rw [cycle_verify_invalid cfg w token h ha hv, key token _ h]
    simp [hv]
  · rw [cycle_verified cfg w token h ha hv, key token _ h]
    simp [ha, hv]

theorem loopBody_noTargets (cfg : Config) (w : World)
    (h : (ReadAndAuthorizeYubikey cfg w).1 = some .ErrNoTargetsDetected) :
    loopBody cfg w =
      ((ReadAndAuthorizeYubikey cfg w).2 ++ [.sleep waitNoTargets], .next) := by
  simp [loopBody, h]

theorem loopBody_error (cfg : Config) (w : World) (e : GoError)
    (h : (ReadAndAuthorizeYubikey cfg w).1 = some e) (hne : e ≠ .ErrNoTargetsDetected) :
    loopBody cfg w =
      ((ReadAndAuthorizeYubikey cfg w).2 ++ [.logError e, .sleep waitError], .next) := by
  unfold loopBody
  simp only [h]

theorem loopBody_done (cfg : Config) (w : World)
    (h : (ReadAndAuthorizeYubikey cfg w).1 = none) :
    loopBody cfg w =
      ((ReadAndAuthorizeYubikey cfg w).2 ++ [.sleep (10 * Second)], .next) := by
  simp [loopBody, h]

theorem loopBody_sleeps (cfg : Config) (w : World) :
    (loopBody cfg w).2 = .next ∧
    ((ReadAndAuthorizeYubikey cfg w).1 = some .ErrNoTargetsDetected ∧
        sleeps (loopBody cfg w).1 = [400 * Millisecond] ∨
      (∃ e, (ReadAndAuthorizeYubikey cfg w).1 = some e ∧ e ≠ .ErrNoTargetsDetected ∧
        Event.logError e ∈ (loopBody cfg w).1) ∧
        sleeps (loopBody cfg w).1 = [5 * Second] ∨
      (ReadAndAuthorizeYubikey cfg w).1 = none ∧
        sleeps (loopBody cfg w).1 = [10 * Second]) := by
  rcases hr : (ReadAndAuthorizeYubikey cfg w).1 with _ | e
  · rw [loopBody_done cfg w hr]
    refine ⟨rfl, Or.inr (Or.inr ⟨rfl, ?_⟩)⟩
    simp [sleeps_append, sleeps_cycle, sleeps]
  · by_cases he : e = .ErrNoTargetsDetected
    · subst he
      rw [loopBody_noTargets cfg w hr]
      refine ⟨rfl, Or.inl ⟨rfl, ?_⟩⟩
      simp [sleeps_append, sleeps_cycle, sleeps, waitNoTargets]
    · rw [loopBody_error cfg w e hr he]
      refine ⟨rfl, Or.inr (Or.inl ⟨⟨e, rfl, he, ?_⟩, ?_⟩)⟩
      · simp
      · simp [sleeps_append, sleeps_cycle, sleeps, waitError]

theorem cycle_done_iff (cfg : Config) (w : World) :
    (ReadAndAuthorizeYubikey cfg w).1 = none ↔
      ∃ token js status, (readToken w).1 = .ok token ∧
        (authorizeTokenID cfg token).1 = true ∧
        (verifyToken w token).1 = (true, none) ∧
        w.urlParse (lockActionURL cfg) = none ∧
        w.httpGet (lockActionURL cfg) (lockActionQuery cfg) = none ∧
        w.readAll = .ok js ∧ w.jsonUnmarshal js = .ok status := by
  rw [cycle_none_iff, openDoor_none_iff]
  constructor
  · rintro ⟨token, h, ha, hv, hu, hg, js, status, hj, hs⟩
    exact ⟨token, js, status, h, ha, hv, hu, hg, hj, hs⟩
  · rintro ⟨token, js, status, h, ha, hv, hu, hg, hj, hs⟩
    exact ⟨token, h, ha, hv, hu, hg, js, status, hj, hs⟩

theorem loopBody_trace_noTargets (cfg : Config) (w : World)
    (h : w.deviceRead = .noTargets) :
    (loopBody cfg w).1 = [.deviceRead, .sleep (400 * Millisecond)] := by
  have hr : (readToken w).1 = .error .ErrNoTargetsDetected := by
    rw [readToken_noTargets w h]
  have hc := cycle_read_error cfg w _ hr
  have hc1 : (ReadAndAuthorizeYubikey cfg w).1 = some .ErrNoTargetsDetected := by
    rw [hc]
  rw [loopBody_noTargets cfg w hc1, hc, readToken_noTargets w h]
  rfl

theorem mainLoop_state (cfg : Config) (ws : Nat → World) (n : Nat) :
    (mainLoop cfg ws n).running = true ∧ (mainLoop cfg ws n).passes = n ∧
    (sleeps (mainLoop cfg ws n).trace).length = n := by
  induction n with
  | zero => exact ⟨rfl, rfl, rfl⟩
  | succ k ih =>
    rcases ih with ⟨hrun, hp, hs⟩
    have hb := loopBody_sleeps cfg (ws (mainLoop cfg ws k).passes)
    have hlen : (sleeps (loopBody cfg (ws (mainLoop cfg ws k).passes)).1).length = 1 := by
      rcases hb.2 with ⟨-, h⟩ | ⟨-, h⟩ | ⟨-, h⟩ <;> rw [h] <;> rfl
    simp only [mainLoop, hrun, if_true]
    refine ⟨?_, ?_, ?_⟩
    · simp [hb.1]
    · simp [hp]
    · rw [sleeps_append, List.length_append, hs, hlen]

/-! ## The local authorizer -/

/-- C1: for a token longer than 32 bytes, `authorizeTokenID` answers true exactly
when the token without its last 32 bytes is equal, as a whole string, to some
entry of `cfg.AuthorizedYubikeys`. -/
theorem authorizeTokenID_iff_exact_member (cfg : Config) (token : GoString)
    (h : 32 < token.length) :
    ((authorizeTokenID cfg token).1 = true ↔
      ∃ user ∈ cfg.AuthorizedYubikeys, user = token.take (token.length - 32)) := by
  rw [authorizeTokenID_long cfg token h, authorizeScan_iff]
  constructor
  · intro hm
    exact ⟨_, hm, rfl⟩
  · rintro ⟨user, hm, rfl⟩
    exact hm

theorem authorizeTokenID_iff_exact_member_witness :
    32 < longToken.length ∧
    ((authorizeTokenID (configWith [str "CCCCCCCCCCCC", str "cccccccccccc"]) longToken).1
        = true ↔
      ∃ user ∈ (configWith [str "CCCCCCCCCCCC", str "cccccccccccc"]).AuthorizedYubikeys,
        user = longToken.take (longToken.length - 32)) :=
  ⟨by decide, authorizeTokenID_iff_exact_member _ longToken (by decide)⟩

/-- C2: for a token of at most 32 bytes, `authorizeTokenID` answers false whatever
the allow-list holds, the empty string and the token itself included. -/
theorem authorizeTokenID_short_false (cfg : Config) (token : GoString)
    (h : token.length ≤ 32) : (authorizeTokenID cfg token).1 = false := by
  rw [authorizeTokenID_short cfg token h]

theorem authorizeTokenID_short_false_witness :
    (str "cccccccccccc").length ≤ 32 ∧
    str "cccccccccccc" ∈ (configWith [[], str "cccccccccccc"]).AuthorizedYubikeys ∧
    [] ∈ (configWith [[], str "cccccccccccc"]).AuthorizedYubikeys ∧
    (authorizeTokenID (configWith [[], str "cccccccccccc"]) (str "cccccccccccc")).1
      = false :=
  ⟨by decide, by decide, by decide,
    authorizeTokenID_short_false _ (str "cccccccccccc") (by decide)⟩

/-- C10: two allow-lists with the same set of entries, in any order and with any
multiplicity, give the same answer of `authorizeTokenID` for every token. -/
theorem authorizeTokenID_order_multiplicity (cfg cfg2 : Config) (token : GoString)
    (h : ∀ s, s ∈ cfg.AuthorizedYubikeys ↔ s ∈ cfg2.AuthorizedYubikeys) :
    (authorizeTokenID cfg token).1 = (authorizeTokenID cfg2 token).1 := by
  by_cases hl : token.length ≤ 32
  · rw [authorizeTokenID_short cfg token hl, authorizeTokenID_short cfg2 token hl]
  · have hl2 : 32 < token.length := Nat.lt_of_not_le hl
    rw [authorizeTokenID_long cfg token hl2, authorizeTokenID_long cfg2 token hl2]
    rw [Bool.eq_iff_iff, authorizeScan_iff, authorizeScan_iff]
    exact h _

theorem authorizeTokenID_order_multiplicity_witness :
    (∀ s, s ∈ (configWith [str "aa", str "cccccccccccc"]).AuthorizedYubikeys ↔
      s ∈ (configWith [str "cccccccccccc", str "aa", str "aa"]).AuthorizedYubikeys) ∧
    (authorizeTokenID (configWith [str "aa", str "cccccccccccc"]) longToken).1 =
      (authorizeTokenID (configWith [str "cccccccccccc", str "aa", str "aa"])
        longToken).1 :=
  have hs : ∀ s, s ∈ (configWith [str "aa", str "cccccccccccc"]).AuthorizedYubikeys ↔
      s ∈ (configWith [str "cccccccccccc", str "aa", str "aa"]).AuthorizedYubikeys := by
    intro s
    simp only [configWith, List.mem_cons, List.mem_singleton, List.not_mem_nil, or_false]
    tauto
  ⟨hs, authorizeTokenID_order_multiplicity _ _ longToken hs⟩

/-! ## The credential extractor -/

/-- C5, as the code has it: for every configured prefix `p` and every nonempty
token string `t`, a read whose first record carries `p` followed by `t` makes
`parseYubikeyURL` return `t` and `readToken` succeed with exactly `t`. -/
theorem readToken_roundtrip_nonempty (w : World) (p t : GoString)
    (rest : List GoString) (hp : p ∈ yubikeyPayloadURLPrefixes) (ht : t ≠ [])
    (hr : w.deviceRead = .message ((p ++ t) :: rest)) :
    parseYubikeyURL (p ++ t) = t ∧ (readToken w).1 = .ok t := by
  have hparse : parseYubikeyURL (p ++ t) = t := parseYubikeyURL_append p t hp
  refine ⟨hparse, ?_⟩
  rw [readToken_message_cons w (p ++ t) rest hr, hparse, if_neg ht]

theorem readToken_roundtrip_nonempty_witness :
    parseYubikeyURL (str "https://my.yubico.com/neo/" ++ longToken) = longToken ∧
    (readToken (worldWith
      (.message [str "https://my.yubico.com/neo/" ++ longToken]) (true, none) true)).1
        = .ok longToken :=
  readToken_roundtrip_nonempty _ (str "https://my.yubico.com/neo/") longToken []
    (by decide) (by decide) rfl

/-- C5 fails for the empty token: the payload that is exactly the configured
prefix, followed by nothing, is parsed to the empty string and `readToken`
fails with "unknown token url". -/
theorem readToken_roundtrip_empty_token_fails :
    str "https://my.yubico.com/neo/" ∈ yubikeyPayloadURLPrefixes ∧
    (worldWith (.message [str "https://my.yubico.com/neo/" ++ []]) (true, none)
      true).deviceRead = .message [str "https://my.yubico.com/neo/" ++ []] ∧
    parseYubikeyURL (str "https://my.yubico.com/neo/" ++ []) = [] ∧
    (readToken (worldWith (.message [str "https://my.yubico.com/neo/" ++ []])
      (true, none) true)).1 = .error (.errorString (str "unknown token url")) ∧
    (readToken (worldWith (.message [str "https://my.yubico.com/neo/" ++ []])
      (true, none) true)).1 ≠ .ok [] := by
  refine ⟨by decide, rfl, by decide, by decide, by decide⟩

/-- C6: a payload that starts with no entry of `yubikeyPayloadURLPrefixes` is
parsed to the empty string, and a read whose first record carries it makes
`readToken` fail with the error "unknown token url". -/
theorem readToken_unrecognized_payload (url : GoString)
    (h : ∀ pre ∈ yubikeyPayloadURLPrefixes, HasPrefix url pre = false) :
    parseYubikeyURL url = [] ∧
    ∀ (w : World) (rest : List GoString), w.deviceRead = .message (url :: rest) →
      (readToken w).1 = .error (.errorString (str "unknown token url")) := by
  have hparse : parseYubikeyURL url = [] :=
    parseYubikeyURLLoop_no_match url yubikeyPayloadURLPrefixes h
  refine ⟨hparse, ?_⟩
  intro w rest hr
  rw [readToken_message_cons w url rest hr, hparse, if_pos rfl]

theorem readToken_unrecognized_payload_witness :
    (∀ pre ∈ yubikeyPayloadURLPrefixes,
      HasPrefix (str "http://my.yubico.com/neo/cccccccccccc") pre = false) ∧
    parseYubikeyURL (str "http://my.yubico.com/neo/cccccccccccc") = [] ∧
    (readToken (worldWith (.message [str "http://my.yubico.com/neo/cccccccccccc"])
      (true, none) true)).1 = .error (.errorString (str "unknown token url")) :=
  have h : ∀ pre ∈ yubikeyPayloadURLPrefixes,
      HasPrefix (str "http://my.yubico.com/neo/cccccccccccc") pre = false := by decide
  ⟨h, (readToken_unrecognized_payload _ h).1,
    (readToken_unrecognized_payload _ h).2 _ [] rfl⟩

/-! ## One cycle -/

/-- C3: in one cycle `openDoor` is entered exactly when the token read succeeded,
`authorizeTokenID` answered true for that token and the verifier answered
valid with no error for it; in every other case the cycle returns an error and
`openDoor` is not entered. -/
theorem openDoor_invoked_iff (cfg : Config) (w : World) :
    (Event.openDoor ∈ (ReadAndAuthorizeYubikey cfg w).2 ↔
      ∃ token, (readToken w).1 = .ok token ∧
        (authorizeTokenID cfg token).1 = true ∧
        (verifyToken w token).1 = (true, none)) ∧
    ((¬ ∃ token, (readToken w).1 = .ok token ∧
        (authorizeTokenID cfg token).1 = true ∧
        (verifyToken w token).1 = (true, none)) →
      (ReadAndAuthorizeYubikey cfg w).1 ≠ none ∧
      Event.openDoor ∉ (ReadAndAuthorizeYubikey cfg w).2) := by
  have hr := openDoor_not_mem_readToken w
  rcases hrt : (readToken w).1 with e | token
  · -- the read failed
    have hc := cycle_read_error cfg w e hrt
    have hno : Event.openDoor ∉ (ReadAndAuthorizeYubikey cfg w).2 := by
      rw [hc]; exact hr
    have hcond : ¬ ∃ token, (Except.error e : Except GoError GoString) = .ok token ∧
        (authorizeTokenID cfg token).1 = true ∧
        (verifyToken w token).1 = (true, none) := by
      rintro ⟨token, h1, -⟩
      cases h1
    refine ⟨⟨fun h => absurd h hno, fun h => absurd h hcond⟩, fun _ => ⟨?_, hno⟩⟩
    rw [hc]; simp
  · have hauth := openDoor_not_mem_authorize cfg token
    have key : ∀ P : GoString → Prop,
        (∃ t, (Except.ok token : Except GoError GoString) = .ok t ∧ P t) ↔ P token := by
      intro P
      constructor
      · rintro ⟨t, h1, h2⟩
        cases h1
        exact h2
      · intro h
        exact ⟨token, rfl, h⟩
    rw [key]
    cases ha : (authorizeTokenID cfg token).1
    · -- not on the allow-list
      have hc := cycle_unauthorized cfg w token hrt ha
      have hno : Event.openDoor ∉ (ReadAndAuthorizeYubikey cfg w).2 := by
        rw [hc]; simp [hr, hauth]
      refine ⟨⟨fun h => absurd h hno, fun h => ?_⟩, fun _ => ⟨?_, hno⟩⟩
      · simp at h
      · rw [hc]; simp
    · rcases verifyToken_cases w token with ⟨ok, e, hv⟩ | hv | hv
      · -- the verifier returned an error
        have hv2 : (verifyToken w token).1.2 = some e := by rw [hv]
        have hc := cycle_verify_error cfg w token e hrt ha hv2
        have hno : Event.openDoor ∉ (ReadAndAuthorizeYubikey cfg w).2 := by
          rw [hc, verifyToken_trace]; simp [hr, hauth]
        refine ⟨⟨fun h => absurd h hno, fun h => ?_⟩, fun _ => ⟨?_, hno⟩⟩
        · rw [hv] at h; simp at h
        · rw [hc]; simp
      · -- the verifier answered invalid
        have hc := cycle_verify_invalid cfg w token hrt ha hv
        have hno : Event.openDoor ∉ (ReadAndAuthorizeYubikey cfg w).2 := by
          rw [hc, verifyToken_trace]; simp [hr, hauth]
        refine ⟨⟨fun h => absurd h hno, fun h => ?_⟩, fun _ => ⟨?_, hno⟩⟩
        · rw [hv] at h; simp at h
        · rw [hc]; simp
      · -- verified: the lock actuator runs
        have hc := cycle_verified cfg w token hrt ha hv
        have hyes : Event.openDoor ∈ (ReadAndAuthorizeYubikey cfg w).2 := by
          rw [hc]
          exact List.mem_append_right _ (openDoor_mem_trace cfg w)
        refine ⟨⟨fun _ => ⟨rfl, hv⟩, fun _ => hyes⟩, fun h => ?_⟩
        exact absurd ⟨rfl, hv⟩ h

theorem openDoor_invoked_iff_witness :
    Event.openDoor ∈ (ReadAndAuthorizeYubikey (configWith [str "cccccccccccc"])
      (worldWith (.message [str "https://my.yubico.com/neo/" ++ longToken])
        (true, none) true)).2 ∧
    Event.openDoor ∉ (ReadAndAuthorizeYubikey (configWith [str "cccccccccccc"])
      (worldWith (.message [str "https://my.yubico.com/neo/" ++ longToken])
        (false, none) true)).2 :=
  ⟨(openDoor_invoked_iff _ _).1.mpr ⟨longToken, by decide, by decide, rfl⟩,
   fun h => by
    rcases (openDoor_invoked_iff _ _).1.mp h with ⟨token, -, -, hv⟩
    cases hv⟩

/-- C4: when the token read is one for which `authorizeTokenID` answers false,
the cycle returns the error "unknown token ID for: " followed by the token,
and neither the verifier nor `openDoor` is called in that cycle. -/
theorem unauthorized_never_verified (cfg : Config) (w : World) (token : GoString)
    (h : (readToken w).1 = .ok token)
    (ha : (authorizeTokenID cfg token).1 = false) :
    (ReadAndAuthorizeYubikey cfg w).1 =
        some (.errorString (str "unknown token ID for: " ++ token)) ∧
    (∀ t, Event.yubiVerify t ∉ (ReadAndAuthorizeYubikey cfg w).2) ∧
    Event.openDoor ∉ (ReadAndAuthorizeYubikey cfg w).2 := by
  rw [cycle_unauthorized cfg w token h ha]
  refine ⟨rfl, fun t => ?_, ?_⟩
  · simp [yubiVerify_not_mem_readToken, yubiVerify_not_mem_authorize]
  · simp [openDoor_not_mem_readToken, openDoor_not_mem_authorize]

theorem unauthorized_never_verified_witness :
    (ReadAndAuthorizeYubikey (configWith [str "dddddddddddd"])
      (worldWith (.message [str "https://my.yubico.com/neo/" ++ longToken])
        (true, none) true)).1 =
        some (.errorString (str "unknown token ID for: " ++ longToken)) ∧
    (∀ t, Event.yubiVerify t ∉ (ReadAndAuthorizeYubikey (configWith [str "dddddddddddd"])
      (worldWith (.message [str "https://my.yubico.com/neo/" ++ longToken])
        (true, none) true)).2) ∧
    Event.openDoor ∉ (ReadAndAuthorizeYubikey (configWith [str "dddddddddddd"])
      (worldWith (.message [str "https://my.yubico.com/neo/" ++ longToken])
        (true, none) true)).2 :=
  unauthorized_never_verified _ _ longToken (by decide) (by decide)

/-- C9: for a token that was read and locally authorized, an error from the
verifier is returned by the cycle unchanged, whatever the valid flag beside it,
and `openDoor` is not entered; no error with valid=false makes the cycle return
the error "BAD YUBIKEY STATUS: " followed by the token, which is neither an
error of the verifier nor an "unknown token ID for: " error. -/
theorem verifier_failures (cfg : Config) (w : World) (token : GoString)
    (h : (readToken w).1 = .ok token)
    (ha : (authorizeTokenID cfg token).1 = true) :
    (∀ ok e, (verifyToken w token).1 = (ok, some e) →
      (ReadAndAuthorizeYubikey cfg w).1 = some e ∧
      Event.openDoor ∉ (ReadAndAuthorizeYubikey cfg w).2) ∧
    ((verifyToken w token).1 = (false, none) →
      (ReadAndAuthorizeYubikey cfg w).1 =
        some (.errorString (str "BAD YUBIKEY STATUS: " ++ token)) ∧
      Event.openDoor ∉ (ReadAndAuthorizeYubikey cfg w).2) ∧
    (∀ ok e, (verifyToken w token).1 = (ok, some e) →
      e ≠ .errorString (str "BAD YUBIKEY STATUS: " ++ token)) ∧
    (∀ token2, GoError.errorString (str "BAD YUBIKEY STATUS: " ++ token) ≠
      .errorString (str "unknown token ID for: " ++ token2)) := by
  refine ⟨fun ok e hv => ?_, fun hv => ?_, fun ok e hv => ?_, fun token2 => ?_⟩
  · have hv2 : (verifyToken w token).1.2 = some e := by rw [hv]
    rw [cycle_verify_error cfg w token e h ha hv2, verifyToken_trace]
    refine ⟨rfl, ?_⟩
    simp [openDoor_not_mem_readToken, openDoor_not_mem_authorize]
  · rw [cycle_verify_invalid cfg w token h ha hv, verifyToken_trace]
    refine ⟨rfl, ?_⟩
    simp [openDoor_not_mem_readToken, openDoor_not_mem_authorize]
  · rcases verifyToken_error_origin w token ok e hv with ⟨c, rfl⟩
    intro hne
    cases hne
  · intro hne
    injection hne with hm
    exact bad_status_ne_unknown_id token token2 hm

theorem verifier_failures_witness :
    (ReadAndAuthorizeYubikey (configWith [str "cccccccccccc"])
      (worldWith (.message [str "https://my.yubico.com/neo/" ++ longToken])
        (true, some 7) true)).1 = some (.yubiauth 7) ∧
    (ReadAndAuthorizeYubikey (configWith [str "cccccccccccc"])
      (worldWith (.message [str "https://my.yubico.com/neo/" ++ longToken])
        (false, none) true)).1 =
      some (.errorString (str "BAD YUBIKEY STATUS: " ++ longToken)) :=
  ⟨((verifier_failures (configWith [str "cccccccccccc"])
      (worldWith (.message [str "https://my.yubico.com/neo/" ++ longToken])
        (true, some 7) true) longToken (by decide) (by decide)).1 true (.yubiauth 7)
      rfl).1,
   ((verifier_failures (configWith [str "cccccccccccc"])
      (worldWith (.message [str "https://my.yubico.com/neo/" ++ longToken])
        (false, none) true) longToken (by decide) (by decide)).2.1 rfl).1⟩

/-! ## Scenario A -/

/-- C7, as the code has it: the payload of scenario A is read as the token of
twelve `c` and twenty-eight `v`; that token has 40 bytes, so its identity is
its first eight bytes, and `authorizeTokenID` answers true for it exactly when
the allow-list contains "cccccccc"; the cycle then calls the verifier with the
token. -/
theorem scenarioA_identity_is_eight_c (cfg : Config) (w : World)
    (rest : List GoString) (hr : w.deviceRead = .message (scenarioPayload :: rest)) :
    (readToken w).1 = .ok scenarioToken ∧
    ((authorizeTokenID cfg scenarioToken).1 = true ↔
      str "cccccccc" ∈ cfg.AuthorizedYubikeys) ∧
    (str "cccccccc" ∈ cfg.AuthorizedYubikeys →
      Event.yubiVerify scenarioToken ∈ (ReadAndAuthorizeYubikey cfg w).2) := by
  have hparse : parseYubikeyURL scenarioPayload = scenarioToken := by decide
  have hne : scenarioToken ≠ [] := by decide
  have hread : (readToken w).1 = .ok scenarioToken := by
    rw [readToken_message_cons w scenarioPayload rest hr, hparse, if_neg hne]
  have hlen : 32 < scenarioToken.length := by decide
  have hid : scenarioToken.take (scenarioToken.length - 32) = str "cccccccc" := by
    decide
  have hauth : (authorizeTokenID cfg scenarioToken).1 = true ↔
      str "cccccccc" ∈ cfg.AuthorizedYubikeys := by
    rw [authorizeTokenID_long cfg scenarioToken hlen, authorizeScan_iff, hid]
  exact ⟨hread, hauth,
    fun hm => cycle_authorized_verifies cfg w scenarioToken hread (hauth.mpr hm)⟩

theorem scenarioA_identity_is_eight_c_witness :
    (readToken (worldWith (.message [scenarioPayload]) (true, none) true)).1 =
      .ok scenarioToken ∧
    ((authorizeTokenID (configWith [str "cccccccc"]) scenarioToken).1 = true ↔
      str "cccccccc" ∈ (configWith [str "cccccccc"]).AuthorizedYubikeys) ∧
    (str "cccccccc" ∈ (configWith [str "cccccccc"]).AuthorizedYubikeys →
      Event.yubiVerify scenarioToken ∈
        (ReadAndAuthorizeYubikey (configWith [str "cccccccc"])
          (worldWith (.message [scenarioPayload]) (true, none) true)).2) :=
  scenarioA_identity_is_eight_c _ _ [] rfl

/-- C7 fails for the allow-list that holds just "cccccccccccc": the payload of
scenario A is read as the 40-byte token, `authorizeTokenID` answers false for
it, and the cycle ends with the "unknown token ID for: " error without a call
of the verifier. -/
theorem scenarioA_twelve_c_not_authorized :
    str "cccccccccccc" ∈ (configWith [str "cccccccccccc"]).AuthorizedYubikeys ∧
    (readToken (worldWith (.message [scenarioPayload]) (true, none) true)).1 =
      .ok scenarioToken ∧
    (authorizeTokenID (configWith [str "cccccccccccc"]) scenarioToken).1 = false ∧
    (ReadAndAuthorizeYubikey (configWith [str "cccccccccccc"])
      (worldWith (.message [scenarioPayload]) (true, none) true)).1 =
      some (.errorString (str "unknown token ID for: " ++ scenarioToken)) ∧
    Event.yubiVerify scenarioToken ∉
      (ReadAndAuthorizeYubikey (configWith [str "cccccccccccc"])
        (worldWith (.message [scenarioPayload]) (true, none) true)).2 := by
  refine ⟨by decide, by decide, by decide, by decide, by decide⟩

/-! ## The main loop -/

/-- C8: each pass of the main loop sleeps once, for a time fixed by the result of
the cycle: 400 ms exactly when the reader reported no target (and then the pass
logs nothing), 5 s exactly when the cycle returned any other error (which is
logged), 10 s exactly when the cycle got through `openDoor` with the response
read and decoded, for either value of its success flag; every pass ends by
starting the next one, so the loop never stops. -/
theorem loop_pause_by_outcome (cfg : Config) (w : World) (ws : Nat → World) :
    (sleeps (loopBody cfg w).1 = [400 * Millisecond] ∨
      sleeps (loopBody cfg w).1 = [5 * Second] ∨
      sleeps (loopBody cfg w).1 = [10 * Second]) ∧
    (sleeps (loopBody cfg w).1 = [400 * Millisecond] ↔ w.deviceRead = .noTargets) ∧
    (w.deviceRead = .noTargets →
      (loopBody cfg w).1 = [.deviceRead, .sleep (400 * Millisecond)] ∧
      ∀ e ∈ (loopBody cfg w).1, e.isLog = false) ∧
    (sleeps (loopBody cfg w).1 = [5 * Second] ↔
      ∃ e, (ReadAndAuthorizeYubikey cfg w).1 = some e ∧ w.deviceRead ≠ .noTargets) ∧
    (∀ e, (ReadAndAuthorizeYubikey cfg w).1 = some e → w.deviceRead ≠ .noTargets →
      Event.logError e ∈ (loopBody cfg w).1) ∧
    (sleeps (loopBody cfg w).1 = [10 * Second] ↔
      ∃ token js status, (readToken w).1 = .ok token ∧
        (authorizeTokenID cfg token).1 = true ∧
        (verifyToken w token).1 = (true, none) ∧
        w.urlParse (lockActionURL cfg) = none ∧
        w.httpGet (lockActionURL cfg) (lockActionQuery cfg) = none ∧
        w.readAll = .ok js ∧ w.jsonUnmarshal js = .ok status) ∧
    (loopBody cfg w).2 = .next ∧
    ∀ n, (mainLoop cfg ws n).running = true ∧ (mainLoop cfg ws n).passes = n ∧
      (sleeps (mainLoop cfg ws n).trace).length = n := by
  have d1 : ([400 * Millisecond] : List Duration) ≠ [5 * Second] := by decide
  have d2 : ([400 * Millisecond] : List Duration) ≠ [10 * Second] := by decide
  have d3 : ([5 * Second] : List Duration) ≠ [10 * Second] := by decide
  have hquiet : w.deviceRead = .noTargets →
      (loopBody cfg w).1 = [.deviceRead, .sleep (400 * Millisecond)] ∧
      ∀ e ∈ (loopBody cfg w).1, e.isLog = false := by
    intro h
    refine ⟨loopBody_trace_noTargets cfg w h, ?_⟩
    rw [loopBody_trace_noTargets cfg w h]
    intro e he
    simp at he
    rcases he with he | he <;> rw [he] <;> rfl
  rcases loopBody_sleeps cfg w with
    ⟨hnext, ⟨hr, hs⟩ | ⟨⟨e, hr, hne, hlog⟩, hs⟩ | ⟨hr, hs⟩⟩
  · -- the reader reported no target
    have hread : w.deviceRead = .noTargets := (cycle_noTargets_iff cfg w).mp hr
    have hnd : ¬ (ReadAndAuthorizeYubikey cfg w).1 = none := by rw [hr]; simp
    refine ⟨Or.inl hs, ⟨fun _ => hread, fun _ => hs⟩, hquiet, ?_, ?_, ?_, hnext,
      mainLoop_state cfg ws⟩
    · rw [hs]
      exact ⟨fun h => absurd h d1, fun ⟨_, _, h⟩ => absurd hread h⟩
    · intro _ _ h
      exact absurd hread h
    · rw [hs, ← cycle_done_iff]
      exact ⟨fun h => absurd h d2, fun h => absurd h hnd⟩
  · -- the cycle failed with another error
    have hread : w.deviceRead ≠ .noTargets := by
      intro h
      have h2 := (cycle_noTargets_iff cfg w).mpr h
      rw [hr] at h2
      injection h2 with h2
      exact hne h2
    have hnd : ¬ (ReadAndAuthorizeYubikey cfg w).1 = none := by rw [hr]; simp
    refine ⟨Or.inr (Or.inl hs), ?_, hquiet, ?_, ?_, ?_, hnext, mainLoop_state cfg ws⟩
    · rw [hs]
      exact ⟨fun h => absurd h.symm d1, fun h => absurd h hread⟩
    · exact ⟨fun _ => ⟨e, hr, hread⟩, fun _ => hs⟩
    · intro e2 he2 _
      rw [hr] at he2
      injection he2 with he2
      rw [← he2]
      exact hlog
    · rw [hs, ← cycle_done_iff]
      exact ⟨fun h => absurd h d3, fun h => absurd h hnd⟩
  · -- the cycle went through the lock actuator
    have hread : w.deviceRead ≠ .noTargets := by
      intro h
      have h2 := (cycle_noTargets_iff cfg w).mpr h
      rw [hr] at h2
      cases h2
    refine ⟨Or.inr (Or.inr hs), ?_, hquiet, ?_, ?_, ?_, hnext, mainLoop_state cfg ws⟩
    · rw [hs]
      exact ⟨fun h => absurd h.symm d2, fun h => absurd h hread⟩
    · rw [hs]
      refine ⟨fun h => absurd h.symm d3, ?_⟩
      rintro ⟨e, he, -⟩
      rw [hr] at he
      cases he
    · intro e he _
      rw [hr] at he
      cases he
    · rw [← cycle_done_iff]
      exact ⟨fun _ => hr, fun _ => hs⟩

theorem loop_pause_by_outcome_witness :
    sleeps (loopBody (configWith [str "cccccccccccc"])
      (worldWith (.message [str "https://my.yubico.com/neo/" ++ longToken])
        (true, none) false)).1 = [10 * Second] ∧
    sleeps (loopBody (configWith [str "cccccccccccc"])
      (worldWith (.message [str "https://my.yubico.com/neo/" ++ longToken])
        (true, none) true)).1 = [10 * Second] ∧
    sleeps (loopBody (configWith [str "cccccccccccc"])
      (worldWith .noTargets (true, none) true)).1 = [400 * Millisecond] :=
  ⟨(loop_pause_by_outcome _ _ (fun _ => worldWith .noTargets (true, none) true)
      ).2.2.2.2.2.1.mpr
      ⟨longToken, [], ⟨false, false⟩, by decide, by decide, rfl, rfl, rfl, rfl, rfl⟩,
   (loop_pause_by_outcome _ _ (fun _ => worldWith .noTargets (true, none) true)
      ).2.2.2.2.2.1.mpr
      ⟨longToken, [], ⟨true, false⟩, by decide, by decide, rfl, rfl, rfl, rfl, rfl⟩,
   (loop_pause_by_outcome _ _ (fun _ => worldWith .noTargets (true, none) true)
      ).2.1.mpr rfl⟩

end Yubinuki
